import Mathlib

/-!
Verification of the websrc_cbw dashboard against its specification.

The repository is a small device-control dashboard: a browser client
(`ui.js`, `state.js`, `api.js`, `config.js`) polls an Express backend
(`server.js`) that simulates a ControlByWeb-style device.  This file gives a
shallow embedding of the client polling controller, the dynamic UI builder
and renderer, the server authentication and configuration endpoints, and the
HTML-escaping helper, and proves (or refutes) the specification claims about
them.

Modelling conventions:
* JavaScript numbers appearing in arithmetic are modelled as `Rat` (every
  finite double is rational); places where the code tests
  `Number.isFinite` are modelled by `Option Rat`, with `none` standing for a
  value whose numeric conversion is not finite (absent field, `NaN`,
  infinities).
* `Math.trunc` is truncation toward zero, modelled by `Int` division of the
  rational's numerator by its denominator.
* Timers: `setInterval` hands back a fresh opaque id; we model it by
  passing the fresh id as an argument and recording whether
  `clearInterval` / `setInterval` were called.
* The PBKDF2 primitive is an external collaborator (per the spec's scope
  section); it is passed as an opaque function argument
  `hash : String → String → Nat → String` of password, salt hex and
  iteration count.
-/

namespace Cbw

/-! ### `state.js` — shared client state

`state.js` holds `pollMs` (initially 1000), `timerId`, `connected`,
`lastStatus`.  The DOM-element cache `els` is modelled separately where
needed. -/

/-- One `/customState.json` payload as consumed by the client (`ui.js`).
`relays` and `digitalInputs` are the positional string fields
`relay1..relayN` / `digitalInput1..digitalInputN` ("1"/"0"); `minRecRefresh`
is the numeric conversion `Number(s.minRecRefresh)` of the cadence hint,
`none` when that conversion is not finite. -/
structure Snapshot where
  relays : List String
  digitalInputs : List String
  minRecRefresh : Option Rat
  uptimeMs : Option Rat
  vin : String
  register1 : String
  oneWire1 : String
deriving DecidableEq, Repr

/-- The client `state` object from `state.js` (the fields touched by the
polling logic). -/
structure UiState where
  pollMs : Int
  timerId : Option Nat
  connected : Bool
  lastStatus : Option Snapshot
deriving DecidableEq, Repr

/-- JavaScript `Math.trunc` on a finite number: truncation toward zero.
For a rational this is `num / den` with `Int` T-division. -/
def jsTrunc (q : Rat) : Int := q.num / (q.den : Int)

/-- `clampPollMs` from `ui.js`: coerce to a number; if not finite return the
current `state.pollMs` unchanged, else clamp the truncation to
`[250, 10000]`. -/
def clampPollMs (st : UiState) (ms : Option Rat) : Int :=
  match ms with
  | none => st.pollMs
  | some n => max 250 (min 10000 (jsTrunc n))

/-- Result of one call to `maybeUpdatePollFromCustomState`: the updated
state, whether `clearInterval` ran, and whether `setInterval` ran. -/
structure PollUpdate where
  st : UiState
  canceled : Bool
  restarted : Bool
deriving DecidableEq, Repr

/-- `maybeUpdatePollFromCustomState` from `ui.js`: convert the snapshot's
`minRecRefresh` (seconds) to milliseconds, clamp it; if the result is falsy
or equals the current `pollMs`, do nothing; otherwise store it, clear the
old interval if one is running, and start a new one (`newTimer` is the fresh
timer id produced by `setInterval`). -/
def maybeUpdatePollFromCustomState (st : UiState) (s : Snapshot)
    (newTimer : Nat) : PollUpdate :=
  let desiredMs := clampPollMs st (s.minRecRefresh.map (fun x => x * 1000))
  if desiredMs = 0 ∨ desiredMs = st.pollMs then ⟨st, false, false⟩
  else
    ⟨{ st with pollMs := desiredMs, timerId := some newTimer },
      st.timerId.isSome, true⟩

/-- A poll-cycle failure, as thrown by `request` in `api.js`: either the
`fetch` itself rejected (transport) or the response was non-2xx. -/
inductive ConnError where
  | transport
  | httpStatus (status : Nat)
deriving DecidableEq, Repr

/-- One cycle of `refreshStatus` from `ui.js`, with the outcome of
`api.getCustomState()` passed in.  On success store the payload, set
`connected`, and run the poll-cadence update; on failure only set
`connected := false` (rendering does not touch `lastStatus`). -/
def refreshStatus (st : UiState) (fetched : Except ConnError Snapshot)
    (newTimer : Nat) : UiState :=
  match fetched with
  | .error _ => { st with connected := false }
  | .ok s =>
      let st1 := { st with lastStatus := some s, connected := true }
      (maybeUpdatePollFromCustomState st1 s newTimer).st

/-! ### `util.js` — `escapeHtml` -/

/-- The double-quote character, written `'"'` in `util.js`. -/
def quoteChar : Char := Char.ofNat 34

/-- The apostrophe character, written `"'"` in `util.js`. -/
def aposChar : Char := Char.ofNat 39

/-- JavaScript `String.prototype.replaceAll` specialised to a single-character
search string (every search string in `escapeHtml` is one character):
each occurrence of `c` is replaced by `r`. -/
def replaceAllChar (s : List Char) (c : Char) (r : List Char) : List Char :=
  s.flatMap (fun x => if x = c then r else [x])

/-- `escapeHtml` from `util.js` on the character list: the five
`replaceAll` calls in source order (`&`, `<`, `>`, `"`, `'`). -/
def escapeHtmlL (s : List Char) : List Char :=
  replaceAllChar
    (replaceAllChar
      (replaceAllChar
        (replaceAllChar
          (replaceAllChar s '&' "&amp;".toList)
          '<' "&lt;".toList)
        '>' "&gt;".toList)
      quoteChar "&quot;".toList)
    aposChar "&#39;".toList

/-- `escapeHtml` from `util.js` (the `String(s ?? "")` coercion is the
identity on actual strings). -/
def escapeHtml (s : String) : String := (escapeHtmlL s.toList).asString

/-- Per-character normal form of the `replaceAll` chain. -/
def escChar (c : Char) : List Char :=
  if c = '&' then "&amp;".toList
  else if c = '<' then "&lt;".toList
  else if c = '>' then "&gt;".toList
  else if c = quoteChar then "&quot;".toList
  else if c = aposChar then "&#39;".toList
  else [c]

theorem replaceAllChar_flatMap (s : List Char) (f : Char → List Char)
    (c : Char) (r : List Char) :
    replaceAllChar (s.flatMap f) c r
      = s.flatMap (fun x => replaceAllChar (f x) c r) := by
  simp only [replaceAllChar, List.flatMap_assoc]

theorem escChain_char (c : Char) :
    replaceAllChar
      (replaceAllChar
        (replaceAllChar
          (replaceAllChar (if c = '&' then "&amp;".toList else [c])
            '<' "&lt;".toList)
          '>' "&gt;".toList)
        quoteChar "&quot;".toList)
      aposChar "&#39;".toList = escChar c := by
  by_cases h1 : c = '&'
  · subst h1; decide
  by_cases h2 : c = '<'
  · subst h2; decide
  by_cases h3 : c = '>'
  · subst h3; decide
  by_cases h4 : c = quoteChar
  · subst h4; decide
  by_cases h5 : c = aposChar
  · subst h5; decide
  simp [replaceAllChar, escChar, h1, h2, h3, h4, h5]

/-- The five sequential `replaceAll` calls of `escapeHtml` are equivalent to
one character-wise substitution: later calls never rewrite characters
introduced by earlier ones. -/
theorem escapeHtmlL_eq_flatMap (s : List Char) :
    escapeHtmlL s = s.flatMap escChar := by
  unfold escapeHtmlL
  show replaceAllChar (replaceAllChar (replaceAllChar (replaceAllChar
      (s.flatMap (fun x => if x = '&' then "&amp;".toList else [x]))
      '<' "&lt;".toList) '>' "&gt;".toList) quoteChar "&quot;".toList)
      aposChar "&#39;".toList = s.flatMap escChar
  rw [replaceAllChar_flatMap, replaceAllChar_flatMap, replaceAllChar_flatMap,
    replaceAllChar_flatMap]
  exact List.flatMap_congr (fun c _ => escChain_char c)

/-- The four characters that must never survive escaping: `<`, `>`, `"`,
`'`. -/
def bannedChar (c : Char) : Bool :=
  c == '<' || c == '>' || c == quoteChar || c == aposChar

/-- If `l` starts with the tail of one of the five entities
(`amp;`, `lt;`, `gt;`, `quot;`, `#39;`), return what follows it. -/
def entityTail (l : List Char) : Option (List Char) :=
  if l.take 4 = "amp;".toList then some (l.drop 4)
  else if l.take 3 = "lt;".toList then some (l.drop 3)
  else if l.take 3 = "gt;".toList then some (l.drop 3)
  else if l.take 5 = "quot;".toList then some (l.drop 5)
  else if l.take 4 = "#39;".toList then some (l.drop 4)
  else none

theorem entityTail_length {l r : List Char} (h : entityTail l = some r) :
    r.length ≤ l.length := by
  unfold entityTail at h
  split_ifs at h
  all_goals injection h with h
  all_goals subst h
  all_goals simp only [List.length_drop]
  all_goals omega

/-- Scans a character list: every `&` must begin one of the five entities,
and the characters `<`, `>`, `"`, `'` must not occur at all. -/
def entityClean : List Char → Bool
  | [] => true
  | c :: r =>
    if c = '&' then
      match h : entityTail r with
      | some r2 => entityClean r2
      | none => false
    else if bannedChar c then false
    else entityClean r
termination_by l => l.length
decreasing_by
  · have := entityTail_length h
    simp only [List.length_cons]
    omega
  · simp

theorem entityClean_escChar (c : Char) (r : List Char) :
    entityClean (escChar c ++ r) = entityClean r := by
  by_cases h1 : c = '&'
  · subst h1
    show entityClean ('&' :: ('a' :: 'm' :: 'p' :: ';' :: r)) = entityClean r
    rw [entityClean]
    simp [entityTail, List.take, List.drop]
  by_cases h2 : c = '<'
  · subst h2
    show entityClean ('&' :: ('l' :: 't' :: ';' :: r)) = entityClean r
    rw [entityClean]
    simp [entityTail, List.take, List.drop]
  by_cases h3 : c = '>'
  · subst h3
    show entityClean ('&' :: ('g' :: 't' :: ';' :: r)) = entityClean r
    rw [entityClean]
    simp [entityTail, List.take, List.drop]
  by_cases h4 : c = quoteChar
  · subst h4
    show entityClean ('&' :: ('q' :: 'u' :: 'o' :: 't' :: ';' :: r))
        = entityClean r
    rw [entityClean]
    simp [entityTail, List.take, List.drop]
  by_cases h5 : c = aposChar
  · subst h5
    show entityClean ('&' :: ('#' :: '3' :: '9' :: ';' :: r)) = entityClean r
    rw [entityClean]
    simp [entityTail, List.take, List.drop]
  have hb : bannedChar c = false := by
    simp [bannedChar, h2, h3, h4, h5]
  have he : escChar c = [c] := by
    simp [escChar, h1, h2, h3, h4, h5]
  rw [he, List.singleton_append, entityClean]
  simp [h1, hb]

theorem entityClean_escapeHtmlL (s : List Char) :
    entityClean (escapeHtmlL s) = true := by
  rw [escapeHtmlL_eq_flatMap]
  induction s with
  | nil => simp only [List.flatMap_nil]; rw [entityClean]
  | cons c cs ih =>
      rw [List.flatMap_cons, entityClean_escChar]
      exact ih

theorem bannedChar_escChar (c x : Char) (hx : x ∈ escChar c) :
    bannedChar x = false := by
  by_cases h1 : c = '&'
  · subst h1; simp [escChar] at hx; rcases hx with h | h | h | h | h <;>
      subst h <;> decide
  by_cases h2 : c = '<'
  · subst h2; simp [escChar] at hx; rcases hx with h | h | h | h <;>
      subst h <;> decide
  by_cases h3 : c = '>'
  · subst h3; simp [escChar] at hx; rcases hx with h | h | h | h <;>
      subst h <;> decide
  by_cases h4 : c = quoteChar
  · subst h4; simp [escChar, h1, h2, h3] at hx
    rcases hx with h | h | h | h | h | h <;> subst h <;> decide
  by_cases h5 : c = aposChar
  · subst h5; simp [escChar, h1, h2, h3, h4] at hx
    rcases hx with h | h | h | h | h <;> subst h <;> decide
  simp [escChar, h1, h2, h3, h4, h5] at hx
  subst hx
  simp [bannedChar, h2, h3, h4, h5]

/-! ### Server configuration schema (`server.js` store) and the dynamic UI
builder (`ui.js` `buildIndexUiFromConfig`) -/

/-- A relay / digital-input / value entry of the server-side UI config
(`store.config.relays` / `.dis` / `.values` in `server.js`): an `id`
string, a display `name` and an `enabled` flag. -/
structure PointCfg where
  id : String
  name : String
  enabled : Bool
deriving DecidableEq, Repr

/-- The `config` section of the server store, also the body of
`GET /api/publicConfig` consumed by `buildIndexUiFromConfig`. -/
structure ServerConfig where
  pageTitle : String
  relays : List PointCfg
  dis : List PointCfg
  values : List PointCfg
deriving DecidableEq, Repr

/-- Number of `<` characters in a string: the measure used to show that
configured names cannot smuggle markup into the generated HTML. -/
def countLt (s : String) : Nat := s.data.count '<'

theorem countLt_append (a b : String) :
    countLt (a ++ b) = countLt a + countLt b := by
  simp [countLt, String.data_append, List.count_append]

theorem countLt_escapeHtml (s : String) : countLt (escapeHtml s) = 0 := by
  have hdata : (escapeHtml s).data = escapeHtmlL s.toList := by
    simp [escapeHtml, List.asString]
  rw [countLt, hdata, escapeHtmlL_eq_flatMap, List.count_eq_zero]
  intro hmem
  rcases List.mem_flatMap.mp hmem with ⟨c, _, hc⟩
  have := bannedChar_escChar c '<' hc
  simp [bannedChar] at this

/-- The relay panel template of `buildIndexUiFromConfig` (`ui.js`), with the
configured name inserted through `escapeHtml` and `n` the 1-based relay
number; inter-tag indentation whitespace of the source template is not
reproduced. -/
def relayPanelHtml (r : PointCfg) (n : Nat) : String :=
  "<div class=\"panel\" id=\"relay" ++ toString n
    ++ "\"><div class=\"panel-h\" id=\"relay" ++ toString n ++ "Name\">"
    ++ escapeHtml (if r.name = "" then "Relay " ++ toString n else r.name)
    ++ "</div><div class=\"bar off\" id=\"relay" ++ toString n
    ++ "Bar\">Off</div><div class=\"btnrow\"><button class=\"btn\" data-relay=\""
    ++ toString n ++ "\" data-action=\"on\">On</button><button class=\"btn\" data-relay=\""
    ++ toString n ++ "\" data-action=\"off\">Off</button><button class=\"btn\" data-relay=\""
    ++ toString n ++ "\" data-action=\"pulse\">Pulse</button></div></div>"

/-- One digital-input row of the DI panel; disabled inputs produce the empty
string (the `.map` callback returns `""`). -/
def diRowHtml (d : PointCfg) (n : Nat) : String :=
  if d.enabled then
    "<div class=\"kv\"><span id=\"di" ++ toString n ++ "Name\">"
      ++ escapeHtml (if d.name = "" then "Digital Input " ++ toString n else d.name)
      ++ "</span><div class=\"bar off di-bar\" id=\"di" ++ toString n
      ++ "Bar\">Off</div></div>"
  else ""

/-- One values row: only the fixed ids `vin`, `reg1`, `ow1` are rendered;
disabled or unknown entries produce the empty string. -/
def valueRowHtml (v : PointCfg) : String :=
  if v.enabled then
    if v.id = "vin" then
      "<div class=\"kv\"><span id=\"vinName\">"
        ++ escapeHtml (if v.name = "" then "VIN" else v.name)
        ++ "</span><span class=\"pill\" id=\"vin\">?</span></div>"
    else if v.id = "reg1" then
      "<div class=\"kv\"><span id=\"reg1Name\">"
        ++ escapeHtml (if v.name = "" then "Register 1" else v.name)
        ++ "</span><span class=\"pill\" id=\"reg1\">?</span></div>"
    else if v.id = "ow1" then
      "<div class=\"kv\"><span id=\"ow1Name\">"
        ++ escapeHtml (if v.name = "" then "OneWire 1" else v.name)
        ++ "</span><span class=\"pill\" id=\"ow1\">?</span></div>"
    else ""
  else ""

/-- What `buildIndexUiFromConfig` leaves in the document: the grid HTML and,
for the dynamic bar elements, the 1-based number `n` embedded in each
`relay{n}Bar` / `di{n}Bar` id, in DOM (creation) order.  These id lists are
exactly what `cacheDom` recovers with its
`[id^="relay"][id$="Bar"]` / `[id^="di"][id$="Bar"]` selectors. -/
structure BuiltUi where
  gridHtml : String
  relayBarIds : List Nat
  diBarIds : List Nat
deriving DecidableEq, Repr

/-- `buildIndexUiFromConfig` from `ui.js`: relay panels are emitted only for
enabled relays, each keeping its 1-based position `i + 1` in the full config
list as its number; the DI and values panels are wrapped only when some row
is non-blank. -/
def buildIndexUiFromConfig (cfg : ServerConfig) : BuiltUi :=
  let enabledRelays := cfg.relays.enum.filterMap
    (fun p => if p.2.enabled then some p else none)
  let relaysHtml := String.join
    (enabledRelays.map (fun p => relayPanelHtml p.2 (p.1 + 1)))
  let diRows := String.join (cfg.dis.enum.map (fun p => diRowHtml p.2 (p.1 + 1)))
  let diPanel :=
    if diRows.trim = "" then ""
    else "<div class=\"panel\" id=\"diPanel\">" ++ diRows ++ "</div>"
  let valueRows := String.join (cfg.values.map valueRowHtml)
  let valPanel :=
    if valueRows.trim = "" then ""
    else "<div class=\"panel\" id=\"valuesPanel\"><div class=\"panel-h\">Values</div>"
      ++ valueRows ++ "</div>"
  { gridHtml := relaysHtml ++ diPanel ++ valPanel,
    relayBarIds := enabledRelays.map (fun p => p.1 + 1),
    diBarIds := cfg.dis.enum.filterMap
      (fun p => if p.2.enabled then some (p.1 + 1) else none) }

/-! ### `renderCustomState` (`ui.js`)

The renderer walks the cached bar elements in DOM order and, for the `i`-th
bar, reads the payload field `relay{i + 1}` (resp. `digitalInput{i + 1}`) —
the field number comes from the bar's *position* among the rendered bars,
not from the number in the bar's own id. -/

/-- Relay display outcome of `renderCustomState`: for each cached relay bar
(`relayBarIds` in DOM order) the pair of the protocol number in the bar's id
and the on/off state written into it (`s["relay" + (i+1)] === "1"`,
an absent field comparing unequal). -/
def renderRelayDisplay (relayBarIds : List Nat) (s : Snapshot) :
    List (Nat × Bool) :=
  relayBarIds.enum.map (fun p => (p.2, s.relays.getD p.1 "" == "1"))

/-- Digital-input display outcome of `renderCustomState`, analogous. -/
def renderDiDisplay (diBarIds : List Nat) (s : Snapshot) :
    List (Nat × Bool) :=
  diBarIds.enum.map (fun p => (p.2, s.digitalInputs.getD p.1 "" == "1"))

/-! ### `server.js` — store, auth endpoints, config endpoints, relay pulse

The PBKDF2 primitive (`crypto.pbkdf2Sync`) and the random salt generator
(`crypto.randomBytes`) are external collaborators; they enter the handlers
as the opaque arguments `hash` and `freshSalt`. -/

/-- The `creds` section of the persisted store. -/
structure Creds where
  username : String
  saltHex : String
  hashHex : String
  iter : Nat
deriving DecidableEq, Repr

/-- The persisted store: credentials plus UI config. -/
structure Store where
  creds : Creds
  config : ServerConfig
deriving DecidableEq, Repr

/-- An HTTP JSON reply as produced by the API handlers: status code, the
`ok` flag and the `error` string of the body. -/
structure ApiResponse where
  status : Nat
  ok : Bool
  error : Option String
deriving DecidableEq, Repr

/-- `clampStr` from `server.js`: coerce to string and cut to the first
`maxLen` characters (`s.slice(0, maxLen)`). -/
def clampStr (x : String) (maxLen : Nat) : String :=
  if x.length > maxLen then (x.data.take maxLen).asString else x

/-- JavaScript `x || dflt` on an optional string field: the default is used
when the field is absent/nullish or the empty string (falsy). -/
def jsOr (x : Option String) (dflt : String) : String :=
  match x with
  | none => dflt
  | some s => if s = "" then dflt else s

/-- `POST /api/auth/login` (`server.js`): clamp the username, require both
fields, then reject with one and the same `401 invalid_credentials` reply
when either the username is unknown or the password hash does not match;
only in the match case is a session created (not modelled here). -/
def loginHandler (hash : String → String → Nat → String) (creds : Creds)
    (username password : String) : ApiResponse :=
  let username := clampStr username 64
  if username = "" ∨ password = "" then ⟨400, false, some "missing_fields"⟩
  else if username ≠ creds.username then ⟨401, false, some "invalid_credentials"⟩
  else if hash password creds.saltHex creds.iter ≠ creds.hashHex then
    ⟨401, false, some "invalid_credentials"⟩
  else ⟨200, true, none⟩

/-- The request body of `POST /api/auth/change` after the JS coercions:
`oldPassword` and `newPassword` are `String(x ?? "")`, `newUsername` is
`none` when the field is absent (it then defaults to the stored
username). -/
structure ChangeBody where
  oldPassword : String
  newUsername : Option String
  newPassword : String
deriving DecidableEq, Repr

/-- `POST /api/auth/change` (`server.js`), after `requireAuth` has passed:
verify the old password, validate the new username and password, then
mutate the credentials (rotating to `freshSalt` only when a new password
was supplied) and persist.  Returns the reply and the credentials as stored
after the call. -/
def changeHandler (hash : String → String → Nat → String)
    (freshSalt : String) (creds : Creds) (b : ChangeBody) :
    ApiResponse × Creds :=
  let newUsername := clampStr (b.newUsername.getD creds.username) 64
  if hash b.oldPassword creds.saltHex creds.iter ≠ creds.hashHex then
    (⟨401, false, some "invalid_old_password"⟩, creds)
  else if newUsername = "" then
    (⟨400, false, some "bad_username"⟩, creds)
  else if b.newPassword ≠ "" ∧ b.newPassword.length < 4 then
    (⟨400, false, some "password_too_short"⟩, creds)
  else
    let creds1 := { creds with username := newUsername }
    let creds2 :=
      if b.newPassword ≠ "" then
        let iter := if creds.iter = 0 then 150000 else creds.iter
        { creds1 with
            saltHex := freshSalt
            hashHex := hash b.newPassword freshSalt iter
            iter := iter }
      else creds1
    (⟨200, true, none⟩, creds2)

/-- The JSON body of `GET /api/publicConfig`: exactly the four display-safe
fields, taken from `store.config` alone. -/
structure PublicConfigBody where
  pageTitle : String
  relays : List PointCfg
  dis : List PointCfg
  values : List PointCfg
deriving DecidableEq, Repr

/-- `GET /api/publicConfig` (`server.js`): unauthenticated; serialises
`pageTitle`, `relays`, `dis`, `values` of the store's config section. -/
def publicConfigHandler (store : Store) : PublicConfigBody :=
  { pageTitle := store.config.pageTitle
    relays := store.config.relays
    dis := store.config.dis
    values := store.config.values }

/-- A raw relay/DI/value entry of an incoming config: each field may be
absent.  A nullish list entry (`arr[i] || {}`) is the all-`none` record;
`enabled` is `some b` exactly when the incoming field is a boolean. -/
structure RawPoint where
  id : Option String
  name : Option String
  enabled : Option Bool
deriving DecidableEq, Repr

/-- `normalizeList` from `server.js`: a non-array becomes `[]`; each entry
keeps its own `id` when that is truthy (clamped to 24 chars), otherwise
gets `pfx + (i+1)`; names default to `PFX (i+1)`; `enabled` defaults to
`true` when not boolean. -/
def normalizeList (list : Option (List RawPoint)) (pfx : String) :
    List PointCfg :=
  let arr := list.getD []
  arr.enum.map (fun p =>
    { id := clampStr (jsOr p.2.id (pfx ++ toString (p.1 + 1))) 24
      name := clampStr (jsOr p.2.name (pfx.toUpper ++ " " ++ toString (p.1 + 1))) 40
      enabled := p.2.enabled.getD true })

/-- An incoming config object for `normalizeConfig` (`server.js`); `none`
fields are absent/non-array ones. -/
structure RawConfig where
  pageTitle : Option String
  relays : Option (List RawPoint)
  dis : Option (List RawPoint)
  values : Option (List RawPoint)
deriving DecidableEq, Repr

/-- `normalizeConfig` from `server.js`. -/
def normalizeConfig (cfg : Option RawConfig) : ServerConfig :=
  let c := cfg.getD ⟨none, none, none, none⟩
  { pageTitle := clampStr (jsOr c.pageTitle "CASTLEROAD") 40
    relays := normalizeList c.relays "r"
    dis := normalizeList c.dis "d"
    values := normalizeList c.values "v" }

/-- `POST /api/config` (`server.js`), after `requireAuth`: normalize the
incoming object and store it. -/
def postConfigHandler (store : Store) (incoming : Option RawConfig) : Store :=
  { store with config := normalizeConfig incoming }

/-- `relayIndex` from `server.js`: 1-based relay number to 0-based device
index, rejecting out-of-range values. -/
def relayIndex (n : Int) (relayCount : Nat) : Option Nat :=
  let i := n - 1
  if i < 0 ∨ (relayCount : Int) ≤ i then none else some i.toNat

/-- Outcome of `POST /api/relay/:n/pulse`: relay array after the
synchronous part of the handler, the HTTP reply, the clamped width reported
as `pulsed_ms`, and the `setTimeout` obligation (device index, delay in
ms). -/
structure PulseOutcome where
  relays : List Bool
  response : ApiResponse
  pulsedMs : Option Rat
  scheduledOff : Option (Nat × Rat)
deriving DecidableEq, Repr

/-- `POST /api/relay/:n/pulse` (`server.js`): validate the relay number,
read `body.ms` (default 500, also used when not finite), clamp it to
`[10, 10000]`, switch the relay on immediately and schedule the off
transition after the clamped delay. -/
def pulseHandler (relays : List Bool) (n : Int) (bodyMs : Option Rat) :
    PulseOutcome :=
  match relayIndex n relays.length with
  | none => ⟨relays, ⟨400, false, some "bad relay number"⟩, none, none⟩
  | some i =>
      let msRaw := bodyMs.getD 500
      let ms := max 10 (min 10000 msRaw)
      ⟨relays.set i true, ⟨200, true, none⟩, some ms, some (i, ms)⟩

/-! ### `config.js` — client-side config normalization -/

/-- A raw entry of a client config list (`config.js`): `name` is `none`
when nullish, `enabled` is `some b` when the field is the boolean `b`
(`r?.enabled !== false` is false only for a literal `false`). -/
structure ClientRawPoint where
  name : Option String
  enabled : Option Bool
deriving DecidableEq, Repr

/-- A normalized client config entry (`config.js`): numeric 1-based id. -/
structure ClientPoint where
  id : Nat
  name : String
  enabled : Bool
deriving DecidableEq, Repr

/-- The relay list of `defaultConfig()` in `config.js`, as raw input to the
normalizing map. -/
def clientDefaultRelays : List ClientRawPoint :=
  [⟨some "Relay 1", some true⟩, ⟨some "Relay 2", some true⟩,
   ⟨some "Relay 3", some true⟩, ⟨some "Relay 4", some true⟩]

/-- The digital-input list of `defaultConfig()` in `config.js`. -/
def clientDefaultDis : List ClientRawPoint :=
  [⟨some "Digital Input 1", some true⟩, ⟨some "Digital Input 2", some true⟩,
   ⟨some "Digital Input 3", some true⟩, ⟨some "Digital Input 4", some true⟩]

/-- The per-list normalization of `normalizeConfig` in `config.js`: fall
back to the defaults when the incoming list is not an array, then rewrite
every entry to `{ id: i + 1, name: String(r?.name ?? "(base) (i+1)"),
enabled: r?.enabled !== false }`. -/
def clientNormalizeList (raw : Option (List ClientRawPoint))
    (base : List ClientRawPoint) (nameBase : String) : List ClientPoint :=
  let arr := raw.getD base
  arr.enum.map (fun p =>
    { id := p.1 + 1
      name := p.2.name.getD (nameBase ++ " " ++ toString (p.1 + 1))
      enabled := decide (p.2.enabled ≠ some false) })

/-- The relay/digital-input part of an incoming client config object. -/
structure ClientConfigRaw where
  relays : Option (List ClientRawPoint)
  digitalInputs : Option (List ClientRawPoint)
deriving DecidableEq, Repr

/-- The relay and digital-input lists produced by `normalizeConfig` in
`config.js` (the sensor and appearance sections carry no numeric ids and
are omitted); `setUiConfig` stores exactly this normalized form. -/
def clientNormalizeConfig (raw : ClientConfigRaw) :
    List ClientPoint × List ClientPoint :=
  (clientNormalizeList raw.relays clientDefaultRelays "Relay",
   clientNormalizeList raw.digitalInputs clientDefaultDis "Digital Input")

/-! ## Claim theorems -/

/-- A 4-relay configuration with protocol index 2 disabled (the scenario of
the spec's double-indexing property). -/
def cfgC1 : ServerConfig :=
  { pageTitle := "CASTLEROAD"
    relays := [⟨"r1", "Relay 1", true⟩, ⟨"r2", "Relay 2", false⟩,
               ⟨"r3", "Relay 3", true⟩, ⟨"r4", "Relay 4", true⟩]
    dis := [⟨"d1", "Digital Input 1", true⟩, ⟨"d2", "Digital Input 2", true⟩,
            ⟨"d3", "Digital Input 3", true⟩, ⟨"d4", "Digital Input 4", true⟩]
    values := [⟨"vin", "VIN", true⟩, ⟨"reg1", "Register 1", true⟩,
               ⟨"ow1", "OneWire 1", true⟩] }

/-- The snapshot `relay1="1", relay2="0", relay3="1", relay4="0"`
(`relayStates = [true, false, true, false]`). -/
def snapC1 : Snapshot :=
  { relays := ["1", "0", "1", "0"]
    digitalInputs := ["0", "0", "0", "0"]
    minRecRefresh := some 1
    uptimeMs := some 1000
    vin := "24.4 V"
    register1 := "0"
    oneWire1 := "72.05 F" }

/-- C1: with relay protocol index 2 of 4 disabled, the build does yield
exactly 3 visible relay slots in display order `[1, 3, 4]` — but rendering
the snapshot `relayStates = [true, false, true, false]` writes
`(3, false)` into the slot for protocol index 3: the renderer reads the
payload field `relay{i+1}` for the `i`-th *visible bar*, so the bar named
`relay3Bar` receives `relay2`'s state `"0"` and shows Off, while the claim
(and the spec's core invariant) requires it to show On.  This theorem
records the code's actual behaviour at the claim's input. -/
theorem c1_render_uses_dom_position_not_protocol_index :
    (buildIndexUiFromConfig cfgC1).relayBarIds = [1, 3, 4]
    ∧ renderRelayDisplay (buildIndexUiFromConfig cfgC1).relayBarIds snapC1
        = [(1, true), (3, false), (4, true)] := by
  constructor
  · rfl
  · rfl

/-- C2: for a snapshot whose `minRecRefresh` hint is a finite number `q`
(seconds), while a poll timer is running: the new interval is exactly
`trunc(q * 1000)` clamped to `[250, 10000]`; the timer is cancelled and
restarted iff the clamped value differs from the current interval; and a
second application of the same hint performs no cancel and no restart. -/
theorem c2_adapt_clamps_and_restarts_iff_changed
    (st : UiState) (s : Snapshot) (q : Rat) (t newT newT2 : Nat)
    (ht : st.timerId = some t) (hs : s.minRecRefresh = some q) :
    (maybeUpdatePollFromCustomState st s newT).st.pollMs
        = max 250 (min 10000 (jsTrunc (q * 1000)))
    ∧ ((maybeUpdatePollFromCustomState st s newT).canceled = true
        ∧ (maybeUpdatePollFromCustomState st s newT).restarted = true
      ↔ max 250 (min 10000 (jsTrunc (q * 1000))) ≠ st.pollMs)
    ∧ (maybeUpdatePollFromCustomState
        (maybeUpdatePollFromCustomState st s newT).st s newT2).canceled = false
    ∧ (maybeUpdatePollFromCustomState
        (maybeUpdatePollFromCustomState st s newT).st s newT2).restarted
          = false := by
  set D := max 250 (min 10000 (jsTrunc (q * 1000))) with hD
  have hne : D ≠ 0 := by
    have h250 : (250 : Int) ≤ D := le_max_left _ _
    omega
  have hstep : ∀ (st' : UiState) (nT : Nat),
      maybeUpdatePollFromCustomState st' s nT
        = if D = 0 ∨ D = st'.pollMs then ⟨st', false, false⟩
          else ⟨{ st' with pollMs := D, timerId := some nT },
            st'.timerId.isSome, true⟩ := by
    intro st' nT
    have hdes : clampPollMs st' (s.minRecRefresh.map (fun x => x * 1000))
        = D := by
      rw [hs]; rfl
    simp only [maybeUpdatePollFromCustomState, hdes]
  rcases eq_or_ne D st.pollMs with hq | hq
  · have h1 := hstep st newT
    rw [if_pos (Or.inr hq)] at h1
    refine ⟨?_, ?_, ?_, ?_⟩
    · rw [h1]; exact hq.symm
    · rw [h1]; simp [hq]
    · have h2 := hstep st newT2
      rw [if_pos (Or.inr hq)] at h2
      rw [h1, h2]
    · have h2 := hstep st newT2
      rw [if_pos (Or.inr hq)] at h2
      rw [h1, h2]
  · have h1 := hstep st newT
    rw [if_neg (by push_neg; exact ⟨hne, hq⟩)] at h1
    refine ⟨?_, ?_, ?_, ?_⟩
    · rw [h1]
    · rw [h1]; simp [ht, hq]
    · have h2 := hstep { st with pollMs := D, timerId := some newT } newT2
      rw [if_pos (Or.inr rfl)] at h2
      rw [h1, h2]
    · have h2 := hstep { st with pollMs := D, timerId := some newT } newT2
      rw [if_pos (Or.inr rfl)] at h2
      rw [h1, h2]

/-- Witness for C2: current interval 1000 ms, running timer 7, hint 2
seconds: the interval becomes 2000 ms with a cancel-and-restart, and the
repeated hint causes no further churn. -/
theorem c2_adapt_witness :
    (maybeUpdatePollFromCustomState ⟨1000, some 7, false, none⟩
        ⟨[], [], some 2, none, "", "", ""⟩ 8).st.pollMs
      = max 250 (min 10000 (jsTrunc ((2 : Rat) * 1000)))
    ∧ ((maybeUpdatePollFromCustomState ⟨1000, some 7, false, none⟩
          ⟨[], [], some 2, none, "", "", ""⟩ 8).canceled = true
        ∧ (maybeUpdatePollFromCustomState ⟨1000, some 7, false, none⟩
            ⟨[], [], some 2, none, "", "", ""⟩ 8).restarted = true
      ↔ max 250 (min 10000 (jsTrunc ((2 : Rat) * 1000))) ≠ 1000)
    ∧ (maybeUpdatePollFromCustomState
        (maybeUpdatePollFromCustomState ⟨1000, some 7, false, none⟩
          ⟨[], [], some 2, none, "", "", ""⟩ 8).st
        ⟨[], [], some 2, none, "", "", ""⟩ 9).canceled = false
    ∧ (maybeUpdatePollFromCustomState
        (maybeUpdatePollFromCustomState ⟨1000, some 7, false, none⟩
          ⟨[], [], some 2, none, "", "", ""⟩ 8).st
        ⟨[], [], some 2, none, "", "", ""⟩ 9).restarted = false :=
  c2_adapt_clamps_and_restarts_iff_changed
    ⟨1000, some 7, false, none⟩ ⟨[], [], some 2, none, "", "", ""⟩ 2 7 8 9
    rfl rfl

/-- C3: a failed poll keeps `lastStatus` and sets `connected := false`; a
successful poll sets `connected := true` and replaces `lastStatus` with the
new snapshot. -/
theorem c3_poll_failure_keeps_last_snapshot
    (st : UiState) (e : ConnError) (s : Snapshot) (newT : Nat) :
    (refreshStatus st (Except.error e) newT).lastStatus = st.lastStatus
    ∧ (refreshStatus st (Except.error e) newT).connected = false
    ∧ (refreshStatus st (Except.ok s) newT).connected = true
    ∧ (refreshStatus st (Except.ok s) newT).lastStatus = some s := by
  refine ⟨rfl, rfl, ?_, ?_⟩
  · simp only [refreshStatus, maybeUpdatePollFromCustomState]
    split <;> rfl
  · simp only [refreshStatus, maybeUpdatePollFromCustomState]
    split <;> rfl

/-- C9: a snapshot whose `minRecRefresh` does not convert to a finite
number (absent field, non-numeric string, `NaN`, infinities — all modelled
by `minRecRefresh = none`) leaves the state untouched: same `pollMs`, same
`timerId`, no `clearInterval`, no `setInterval`. -/
theorem c9_invalid_hint_leaves_polling_unchanged
    (st : UiState) (s : Snapshot) (newT : Nat)
    (h : s.minRecRefresh = none) :
    maybeUpdatePollFromCustomState st s newT = ⟨st, false, false⟩ := by
  have hdes : clampPollMs st (s.minRecRefresh.map (fun x => x * 1000))
      = st.pollMs := by
    rw [h]; rfl
  simp [maybeUpdatePollFromCustomState, hdes]

/-- Witness for C9: a concrete state with a running timer and a snapshot
without a usable hint is returned unchanged. -/
theorem c9_invalid_hint_witness :
    maybeUpdatePollFromCustomState ⟨1000, some 3, true, none⟩
        ⟨["1"], ["0"], none, none, "", "", ""⟩ 5
      = ⟨⟨1000, some 3, true, none⟩, false, false⟩ :=
  c9_invalid_hint_leaves_polling_unchanged
    ⟨1000, some 3, true, none⟩ ⟨["1"], ["0"], none, none, "", "", ""⟩ 5 rfl

theorem clampStr_ne_empty {u : String} {m : Nat} (hm : 0 < m)
    (h : u ≠ "") : clampStr u m ≠ "" := by
  unfold clampStr
  split
  case isTrue hlen =>
    intro hc
    have hd : u.data.take m = [] := congrArg String.data hc
    rcases List.take_eq_nil_iff.mp hd with h0 | h0
    · omega
    · have hlen0 : u.length = u.data.length := rfl
      have : u.data.length = 0 := by rw [h0]; rfl
      omega
  case isFalse => exact h

/-- C4: a login with an unknown (clamped) username and a login with the
stored username but a password whose hash does not match produce the very
same reply: HTTP 401 with body `{ok: false, error: "invalid_credentials"}`
— nothing in the response separates the two cases. -/
theorem c4_wrong_user_and_wrong_password_indistinguishable
    (hash : String → String → Nat → String) (creds : Creds)
    (u1 p1 u2 p2 : String)
    (hu1 : u1 ≠ "") (hp1 : p1 ≠ "") (hu2 : u2 ≠ "") (hp2 : p2 ≠ "")
    (hmiss : clampStr u1 64 ≠ creds.username)
    (hexist : clampStr u2 64 = creds.username)
    (hwrong : hash p2 creds.saltHex creds.iter ≠ creds.hashHex) :
    loginHandler hash creds u1 p1 = ⟨401, false, some "invalid_credentials"⟩
    ∧ loginHandler hash creds u2 p2
        = ⟨401, false, some "invalid_credentials"⟩ := by
  have hc1 : clampStr u1 64 ≠ "" := clampStr_ne_empty (by omega) hu1
  have hc2 : clampStr u2 64 ≠ "" := clampStr_ne_empty (by omega) hu2
  constructor
  · simp only [loginHandler]
    rw [if_neg (by push_neg; exact ⟨hc1, hp1⟩), if_pos hmiss]
  · simp only [loginHandler]
    rw [if_neg (by push_neg; exact ⟨hc2, hp2⟩),
      if_neg (by simp [hexist]), if_pos hwrong]

/-- A concrete instance of the opaque hashing collaborator, used only to
instantiate hypotheses in witnesses and counterexamples. -/
def catHash (password saltHex : String) (_ : Nat) : String :=
  password ++ saltHex

/-- Concrete credentials for witnesses: under `catHash`, the stored hash
`"pwab"` with salt `"ab"` verifies exactly the password `"pw"`. -/
def demoCreds : Creds :=
  { username := "admin", saltHex := "ab", hashHex := "pwab", iter := 1000 }

/-- Witness for C4: `login("ghost", "x")` (unknown user) and
`login("admin", "y")` (known user, wrong password) return the identical
401 `invalid_credentials` reply. -/
theorem c4_login_witness :
    loginHandler catHash demoCreds "ghost" "x"
        = ⟨401, false, some "invalid_credentials"⟩
    ∧ loginHandler catHash demoCreds "admin" "y"
        = ⟨401, false, some "invalid_credentials"⟩ :=
  c4_wrong_user_and_wrong_password_indistinguishable catHash demoCreds
    "ghost" "x" "admin" "y" (by decide) (by decide) (by decide) (by decide)
    (by decide) (by decide) (by decide)

/-- C5 counterexample: an *empty* `newPassword` has length `0 < 4`, yet the
change call with a correct `oldPassword` succeeds (HTTP 200, `ok: true`)
and mutates the stored username — `newPassword && newPassword.length < 4`
only rejects non-empty short passwords, an empty one means "keep the
current password".  This refutes the claim as stated for the
shorter-than-4 password `""`. -/
theorem c5_empty_new_password_is_accepted :
    ("" : String).length < 4
    ∧ catHash "pw" demoCreds.saltHex demoCreds.iter = demoCreds.hashHex
    ∧ (changeHandler catHash "newsalt" demoCreds ⟨"pw", some "bob", ""⟩).1
        = ⟨200, true, none⟩
    ∧ (changeHandler catHash "newsalt" demoCreds
        ⟨"pw", some "bob", ""⟩).2.username = "bob" := by
  refine ⟨by decide, by decide, ?_, ?_⟩ <;> rfl

/-- C5 (amended): with a correct `oldPassword`, a non-empty effective new
username, and a *non-empty* `newPassword` shorter than 4 characters, the
change call fails with HTTP 400 `password_too_short` and the stored
credentials are returned unchanged. -/
theorem c5_short_nonempty_password_rejected
    (hash : String → String → Nat → String) (freshSalt : String)
    (creds : Creds) (b : ChangeBody)
    (hold : hash b.oldPassword creds.saltHex creds.iter = creds.hashHex)
    (huser : clampStr (b.newUsername.getD creds.username) 64 ≠ "")
    (hne : b.newPassword ≠ "") (hlen : b.newPassword.length < 4) :
    changeHandler hash freshSalt creds b
      = (⟨400, false, some "password_too_short"⟩, creds) := by
  simp only [changeHandler]
  rw [if_neg (by simp [hold]), if_neg huser, if_pos ⟨hne, hlen⟩]

/-- Witness for C5's amended claim: a 3-character new password is rejected
with `password_too_short` and the credentials stay as they were. -/
theorem c5_short_password_witness :
    changeHandler catHash "newsalt" demoCreds ⟨"pw", some "bob", "abc"⟩
      = (⟨400, false, some "password_too_short"⟩, demoCreds) :=
  c5_short_nonempty_password_rejected catHash "newsalt" demoCreds
    ⟨"pw", some "bob", "abc"⟩ (by decide) (by decide) (by decide) (by decide)

/-- C6: for a valid relay number, the pulse handler clamps the requested
width to `[10, 10000]` ms (50000 becomes 10000), switches the relay on in
the synchronous part of the handler, and schedules the off transition for
exactly the clamped delay. -/
theorem c6_pulse_clamps_and_schedules_off
    (relays : List Bool) (n : Int) (q : Rat) (i : Nat)
    (h : relayIndex n relays.length = some i) :
    (pulseHandler relays n (some q)).relays = relays.set i true
    ∧ (pulseHandler relays n (some q)).relays.getD i false = true
    ∧ (pulseHandler relays n (some q)).pulsedMs
        = some (max 10 (min 10000 q))
    ∧ (pulseHandler relays n (some q)).scheduledOff
        = some (i, max 10 (min 10000 q))
    ∧ (q = 50000 → (pulseHandler relays n (some q)).pulsedMs = some 10000) := by
  have hi : i < relays.length := by
    simp only [relayIndex] at h
    split at h
    · exact Option.noConfusion h
    next hcond =>
      push_neg at hcond
      injection h with h
      omega
  have hout : pulseHandler relays n (some q)
      = ⟨relays.set i true, ⟨200, true, none⟩,
        some (max 10 (min 10000 q)), some (i, max 10 (min 10000 q))⟩ := by
    simp only [pulseHandler, h, Option.getD_some]
  refine ⟨by rw [hout], ?_, by rw [hout], by rw [hout], ?_⟩
  · rw [hout]
    simp [List.getD, List.getElem?_set_self, hi]
  · intro hq
    subst hq
    rw [hout]
    norm_num

/-- Witness for C6: `pulse(relay = 2, ms = 50000)` on a 4-relay device
turns relay 2 on, reports `pulsed_ms = 10000` and schedules the off
transition after 10000 ms. -/
theorem c6_pulse_witness :
    (pulseHandler [false, false, false, false] 2 (some 50000)).relays
        = [false, true, false, false]
    ∧ (pulseHandler [false, false, false, false] 2 (some 50000)).pulsedMs
        = some 10000
    ∧ (pulseHandler [false, false, false, false] 2
        (some 50000)).scheduledOff = some (1, 10000) := by
  have h := c6_pulse_clamps_and_schedules_off [false, false, false, false]
    2 50000 1 (by decide)
  refine ⟨?_, h.2.2.2.2 rfl, ?_⟩
  · rw [h.1]; rfl
  · rw [h.2.2.2.1]; norm_num

/-- C7: the `publicConfig` reply is computed from the config section alone
and carries exactly the four display-safe fields; two stores that differ
only in their credentials produce identical replies. -/
theorem c7_public_config_reveals_no_credentials
    (k1 k2 : Creds) (c : ServerConfig) :
    publicConfigHandler ⟨k1, c⟩ = publicConfigHandler ⟨k2, c⟩
    ∧ publicConfigHandler ⟨k1, c⟩
        = ⟨c.pageTitle, c.relays, c.dis, c.values⟩ :=
  ⟨rfl, rfl⟩

/-- A store holding the server defaults, used as the pre-state of the C8
counterexample. -/
def demoStore : Store :=
  { creds := demoCreds
    config :=
      { pageTitle := "CASTLEROAD"
        relays := [⟨"r1", "Relay 1", true⟩, ⟨"r2", "Relay 2", true⟩,
                   ⟨"r3", "Relay 3", true⟩, ⟨"r4", "Relay 4", true⟩]
        dis := [⟨"d1", "Digital Input 1", true⟩, ⟨"d2", "Digital Input 2", true⟩,
                ⟨"d3", "Digital Input 3", true⟩, ⟨"d4", "Digital Input 4", true⟩]
        values := [⟨"vin", "VIN", true⟩, ⟨"reg1", "Register 1", true⟩,
                   ⟨"ow1", "OneWire 1", true⟩] } }

/-- C8 counterexample: `POST /api/config` with a single relay entry whose
id is `"zzz"` stores that id verbatim — `normalizeList` keeps any truthy
incoming id (merely clamped to 24 chars) and its defaults are the strings
`"r1"`, `"d1"`, …, so the stored id of the point at position 0 is neither
`1` nor even `"r1"`: the claimed invariant fails on the server path. -/
theorem c8_server_keeps_arbitrary_incoming_id :
    ((postConfigHandler demoStore
        (some ⟨none, some [⟨some "zzz", none, none⟩], none, none⟩)).config.relays.map
      (fun p => p.id)) = ["zzz"] := by
  rfl

/-- C8 (amended): the client-side `normalizeConfig` in `config.js` does
enforce the invariant — for every incoming object, the normalized relay
and digital-input lists have ids exactly `1, 2, …, N` matching their
positions. -/
theorem c8_client_normalize_ids_contiguous (raw : ClientConfigRaw) :
    ((clientNormalizeConfig raw).1.map (fun p => p.id))
        = List.range' 1 (clientNormalizeConfig raw).1.length
    ∧ ((clientNormalizeConfig raw).2.map (fun p => p.id))
        = List.range' 1 (clientNormalizeConfig raw).2.length := by
  have key : ∀ (l : List ClientRawPoint) (nb : String),
      ((l.enum.map (fun p => ClientPoint.mk (p.1 + 1)
          (p.2.name.getD (nb ++ " " ++ toString (p.1 + 1)))
          (decide (p.2.enabled ≠ some false)))).map (fun p => p.id))
        = List.range' 1 l.length := by
    intro l nb
    rw [List.map_map]
    show l.enum.map (fun p => p.1 + 1) = List.range' 1 l.length
    rw [List.range'_eq_map_range, ← List.enum_map_fst, List.map_map]
    congr 1
    funext p
    simp [Nat.add_comm]
  constructor
  · have h := key ((raw.relays).getD clientDefaultRelays) "Relay"
    simp only [clientNormalizeConfig, clientNormalizeList]
    rw [h]
    simp [List.length_map, List.enum_length]
  · have h := key ((raw.digitalInputs).getD clientDefaultDis) "Digital Input"
    simp only [clientNormalizeConfig, clientNormalizeList]
    rw [h]
    simp [List.length_map, List.enum_length]

theorem all_not_banned_escapeHtml (s : String) :
    ((escapeHtml s).data.all (fun c => !bannedChar c)) = true := by
  have hdata : (escapeHtml s).data = escapeHtmlL s.toList := by
    simp [escapeHtml, List.asString]
  rw [hdata, escapeHtmlL_eq_flatMap, List.all_eq_true]
  intro x hx
  rcases List.mem_flatMap.mp hx with ⟨c, _, hc⟩
  simp [bannedChar_escChar c x hc]

/-- C10: `escapeHtml` output never contains `<`, `>`, `"` or `'`, and every
`&` in it begins one of the entities `&amp;`, `&lt;`, `&gt;`, `&quot;`,
`&#39;` (the `entityClean` scan); and the builder templates insert
configured names only through `escapeHtml`, so the number of `<`
characters — the only way to open markup — in a relay panel, DI row or
values row is independent of the configured name. -/
theorem c10_escaped_names_are_inert :
    (∀ s : String,
      ((escapeHtml s).data.all (fun c => !bannedChar c)) = true
      ∧ entityClean (escapeHtml s).data = true)
    ∧ (∀ (r : PointCfg) (n : Nat) (nm : String),
        countLt (relayPanelHtml { r with name := nm } n)
          = countLt (relayPanelHtml r n))
    ∧ (∀ (d : PointCfg) (n : Nat) (nm : String),
        countLt (diRowHtml { d with name := nm } n) = countLt (diRowHtml d n))
    ∧ (∀ (v : PointCfg) (nm : String),
        countLt (valueRowHtml { v with name := nm })
          = countLt (valueRowHtml v)) := by
  refine ⟨fun s => ⟨all_not_banned_escapeHtml s, ?_⟩, ?_, ?_, ?_⟩
  · have hdata : (escapeHtml s).data = escapeHtmlL s.toList := by
      simp [escapeHtml, List.asString]
    rw [hdata]
    exact entityClean_escapeHtmlL s.toList
  · intro r n nm
    simp [relayPanelHtml, countLt_append, countLt_escapeHtml]
  · intro d n nm
    cases hd : d.enabled <;>
      simp [diRowHtml, hd, countLt_append, countLt_escapeHtml]
  · intro v nm
    simp only [valueRowHtml]
    split_ifs <;>
      simp [countLt_append, countLt_escapeHtml]

end Cbw
